import Mathlib

/-!
Shallow embedding of the ball-path simulator core (src/unnamed/part_000).
JavaScript numbers are modelled as exact rationals; comparisons of the form
sqrt d < r in the source are embedded as d < r ^ 2 (equivalent for
non-negative quantities), and the argmin over Math.hypot distances is taken
over squared distances (square root is strictly monotone on non-negatives,
so all comparisons agree).
-/

/-- Fixed simulation constants of the component. -/
def BALL_RADIUS : ℚ := 15

def BALL_MASS : ℚ := 1

def GRAVITY : ℚ := 3/10

def GROUND_Y : ℚ := 650

def TOLERANCE_PERCENTAGE : ℚ := 10

def BUCKET_WIDTH : ℚ := 80

def BUCKET_HEIGHT : ℚ := 60

/-- Plane point, `type Point = \x7b x: number; y: number \x7d`. -/
structure Point where
  x : ℚ
  y : ℚ
  deriving DecidableEq

/-- Tag of a path segment, the `"line" | "curve"` union of the source. -/
inductive SegType
  | line
  | curve
  deriving DecidableEq

/-- Authored segment, `type PathSegment = \x7b type; points: Point[] \x7d`. -/
structure PathSegment where
  type : SegType
  points : List Point
  deriving DecidableEq

/-- Target zone, the `Bucket` record of the source. -/
structure Bucket where
  x : ℚ
  y : ℚ
  width : ℚ
  height : ℚ
  isHit : Bool
  deriving DecidableEq

/-- Energy readings, the `EnergyData` record of the source. -/
structure EnergyData where
  kineticEnergy : ℚ
  potentialEnergy : ℚ
  totalEnergy : ℚ
  energyLoss : ℚ
  deriving DecidableEq

/-- Source `checkBucketHit(ballX, ballY)`; the captured `bucket` state is an
explicit argument, and the `if (!bucket) return false` guard is the `none`
case. -/
def checkBucketHit (bucket : Option Bucket) (ballX ballY : ℚ) : Bool :=
  match bucket with
  | none => false
  | some b =>
    let ballBottom := ballY + BALL_RADIUS
    let bucketLeft := b.x - b.width / 2
    let bucketRight := b.x + b.width / 2
    let bucketTop := b.y - b.height
    decide (bucketLeft ≤ ballX) && decide (ballX ≤ bucketRight) &&
      decide (bucketTop ≤ ballBottom) && decide (ballBottom ≤ b.y)

/-- Source `calculateEnergy(velocityX, velocityY, ballY)`; the mutable
`initialEnergyRef.current` (written once per run) is the explicit
`initialTotal` argument. -/
def calculateEnergy (initialTotal vx vy ballY : ℚ) : EnergyData :=
  let velocitySquared := vx * vx + vy * vy
  let kineticEnergy := 1/2 * BALL_MASS * velocitySquared
  let height := GROUND_Y - ballY
  let potentialEnergy := BALL_MASS * GRAVITY * height
  let totalEnergy := kineticEnergy + potentialEnergy
  let energyLoss := initialTotal - totalEnergy
  ⟨kineticEnergy, potentialEnergy, totalEnergy, energyLoss⟩

/-- Total energy of a ball state; the `initialTotal` input of
`calculateEnergy` only feeds the loss field, so any value serves here. -/
def totalEnergyOf (vx vy ballY : ℚ) : ℚ :=
  (calculateEnergy 0 vx vy ballY).totalEnergy

/-- Source `calculatePredictionAccuracy(predicted, actual)`. -/
def calculatePredictionAccuracy (predicted actual : ℚ) : ℚ :=
  if actual = 0 then (if predicted = 0 then 100 else 0)
  else max 0 (100 - |(predicted - actual) / actual| * 100)

/-- Source `isPredictionCorrect(predicted, actual)`. -/
def isPredictionCorrect (predicted actual : ℚ) : Bool :=
  if actual = 0 then decide (|predicted| < 1/10)
  else decide (|(predicted - actual) / actual| * 100 ≤ TOLERANCE_PERCENTAGE)

/-- Squared Euclidean distance between two points. -/
def distSq (p q : Point) : ℚ :=
  (p.x - q.x) ^ 2 + (p.y - q.y) ^ 2

/-- Step count of the line branch of `getPathPoints`:
`Math.max(Math.floor(distance / 5), 1)` with `distance = Math.hypot(...)`.
Since the floor of sqrt q / 5 equals the floor of sqrt (q / 25), and the
integer floor of a real square root equals `Nat.sqrt` of the floor, this is
exact for every rational squared distance. -/
def lineSteps (p1 p2 : Point) : ℕ :=
  max (Nat.sqrt (⌊distSq p1 p2 / 25⌋).toNat) 1

/-- Inner sampling loop shared verbatim by both branches of
`getPathPoints`: `for (let t = 0; t <= steps; t++)` pushing the linear
interpolation of the pair at `t / steps`. -/
def samplePair (p1 p2 : Point) (steps : ℕ) : List Point :=
  (List.range (steps + 1)).map (fun t =>
    let r : ℚ := (t : ℚ) / (steps : ℚ)
    ⟨p1.x + (p2.x - p1.x) * r, p1.y + (p2.y - p1.y) * r⟩)

/-- Per-segment part of `getPathPoints`: each consecutive control-point pair
is sampled with `lineSteps` steps for a line segment and a fixed 30 steps
for a curve segment. -/
def segmentPoints (seg : PathSegment) : List Point :=
  match seg.type with
  | .line =>
    (seg.points.zip seg.points.tail).flatMap
      (fun pr => samplePair pr.1 pr.2 (lineSteps pr.1 pr.2))
  | .curve =>
    (seg.points.zip seg.points.tail).flatMap
      (fun pr => samplePair pr.1 pr.2 30)

/-- Source `getPathPoints()` over an explicit path. -/
def getPathPoints (path : List PathSegment) : List Point :=
  path.flatMap segmentPoints

/-- Clamped projection of the ball center onto the sub-segment `p1 p2`,
the body of the loop of `getCollisionPoint`. -/
def closestOnSegment (ballPos p1 p2 : Point) : Point :=
  let a := ballPos.x - p1.x
  let b := ballPos.y - p1.y
  let c := p2.x - p1.x
  let d := p2.y - p1.y
  let dot := a * c + b * d
  let lenSq := c * c + d * d
  let param := if lenSq ≠ 0 then dot / lenSq else -1
  if param < 0 then p1
  else if 1 < param then p2
  else ⟨p1.x + param * c, p1.y + param * d⟩

/-- Source `getCollisionPoint(ballPos, pathPoints)`: the first consecutive
pair whose clamped projection lies within `BALL_RADIUS + 3` of the ball
(the source compares the square root; we compare squares). -/
def getCollisionPoint (ballPos : Point) (pathPoints : List Point) : Option Point :=
  (pathPoints.zip pathPoints.tail).findSome? (fun pr =>
    let cp := closestOnSegment ballPos pr.1 pr.2
    if distSq ballPos cp < (BALL_RADIUS + 3) ^ 2 then some cp else none)

/-- Index of the first sampled point at minimum distance from the ball, the
`nearestIdx` loop inside the path-contact block of `animate` (strict `<`
update keeps the earliest minimum; squared distances preserve every
comparison of `Math.hypot` values). -/
def nearestIdx (ballX ballY : ℚ) (pathPoints : List Point) : ℕ :=
  let best := pathPoints.enum.foldl
    (fun acc ip =>
      let d := (ip.2.x - ballX) ^ 2 + (ip.2.y - ballY) ^ 2
      match acc with
      | none => some (ip.1, d)
      | some jm => if d < jm.2 then some (ip.1, d) else some jm)
    none
  match best with
  | some jm => jm.1
  | none => 0

/-- Mutable locals of the `animate` closure. -/
structure SimState where
  ballX : ℚ
  ballY : ℚ
  vx : ℚ
  vy : ℚ
  onGround : Bool
  ballInBucket : Bool
  deriving DecidableEq

/-- Result of one invocation of `animate`. -/
inductive TickOutcome
  | aborted
  | settled (s : SimState)
  | running (s : SimState)
  deriving DecidableEq

/-- Finiteness test of a coordinate; exact rational arithmetic produces no
non-finite values, so the source's `isFinite` guard is constantly true
here. -/
def isFiniteQ (_ : ℚ) : Bool := true

/-- Integration step opening `animate`: `velocityY += GRAVITY` and then
`ballX += velocityX; ballY += velocityY` with the incremented velocity. -/
def integrate (s : SimState) : SimState :=
  ⟨s.ballX + s.vx, s.ballY + (s.vy + GRAVITY), s.vx, s.vy + GRAVITY,
   s.onGround, s.ballInBucket⟩

/-- Bucket-containment block of `animate`, guarded by
`if (bucket && !ballInBucket)`: on capture the ball is pinned to the bucket
top minus the radius, both velocity components are zeroed and the grounded
and in-bucket flags are set. -/
def bucketStage (bucket : Option Bucket) (s : SimState) : SimState :=
  match bucket with
  | some b =>
    if !s.ballInBucket && checkBucketHit (some b) s.ballX s.ballY then
      ⟨s.ballX, b.y - b.height - BALL_RADIUS, 0, 0, true, true⟩
    else s
  | none => s

/-- Ground-plane block of `animate`, guarded by
`!ballInBucket && ballY + BALL_RADIUS >= GROUND_Y`: clamp to the ground
line minus radius, zero vertical velocity, mark grounded, scale horizontal
velocity once by the friction coefficient. -/
def groundStage (friction : ℚ) (s : SimState) : SimState :=
  if !s.ballInBucket && decide (GROUND_Y ≤ s.ballY + BALL_RADIUS) then
    { s with ballY := GROUND_Y - BALL_RADIUS, vy := 0, onGround := true,
             vx := s.vx * friction }
  else s

/-- Path-contact block of `animate`, guarded by `!ballInBucket`: clamp onto
the contact point when below it, then add the local slope of the nearest
sampled sub-segment to the horizontal velocity while grounded; with no
contact point the grounded flag is cleared. -/
def pathStage (pathPoints : List Point) (s : SimState) : SimState :=
  if !s.ballInBucket then
    match getCollisionPoint ⟨s.ballX, s.ballY⟩ pathPoints with
    | some cp =>
      let targetY := cp.y - BALL_RADIUS
      let stA : SimState :=
        if decide (targetY < s.ballY) then
          { s with ballY := targetY, vy := 0, onGround := true }
        else s
      let idx := nearestIdx stA.ballX stA.ballY pathPoints
      if idx < pathPoints.length - 1 && stA.onGround then
        let cur := pathPoints.getD idx ⟨0, 0⟩
        let next := pathPoints.getD (idx + 1) ⟨0, 0⟩
        if next.x - cur.x ≠ 0 then
          { stA with vx := stA.vx + (next.y - cur.y) / (next.x - cur.x) * 1 }
        else stA
      else stA
    | none => { s with onGround := false }
  else s

/-- Global per-tick damping of `animate`, guarded by `!ballInBucket`. -/
def frictionStage (friction : ℚ) (s : SimState) : SimState :=
  if !s.ballInBucket then { s with vx := s.vx * friction } else s

/-- Body of `animate` up to (excluding) the settle check: integration, the
non-finite guard, then the bucket, ground, path and global-friction blocks
in source order. `none` is the aborted early return. -/
def tickCore (bucket : Option Bucket) (friction : ℚ) (pathPoints : List Point)
    (s : SimState) : Option SimState :=
  let si := integrate s
  if !(isFiniteQ si.ballX && isFiniteQ si.ballY) then none
  else
    some (frictionStage friction
      (pathStage pathPoints (groundStage friction (bucketStage bucket si))))

/-- One full invocation of `animate`: `tickCore` followed by the settle
check, which snaps both velocity components to 0 and terminates when each
magnitude is below 1/10. -/
def animateTick (bucket : Option Bucket) (friction : ℚ) (pathPoints : List Point)
    (s : SimState) : TickOutcome :=
  match tickCore bucket friction pathPoints s with
  | none => .aborted
  | some s1 =>
    if decide (|s1.vx| < 1/10) && decide (|s1.vy| < 1/10) then
      .settled { s1 with vx := 0, vy := 0 }
    else .running s1

/-- Final `EnergyData` surfaced by a settled tick: the source computes
`calculateEnergy(velocityX, velocityY, ballY)` after the snap, which is the
snapshot of the settled state. -/
def settledSnapshot (initialTotal : ℚ) : TickOutcome → Option EnergyData
  | .settled s => some (calculateEnergy initialTotal s.vx s.vy s.ballY)
  | _ => none

/-- The external scheduler: a settled or aborted run is no longer advanced,
a running one receives the next `animate` invocation. -/
def runStep (bucket : Option Bucket) (friction : ℚ) (pathPoints : List Point) :
    TickOutcome → TickOutcome
  | .running s => animateTick bucket friction pathPoints s
  | o => o

/-- Data established by `runSimulation` before the first tick. -/
structure RunStart where
  pathPoints : List Point
  state0 : SimState
  initialTotal : ℚ
  deriving DecidableEq

/-- Start-of-run logic of `runSimulation`: the refusal guard
`if (path.length === 0) return`, the sampled path, the initial ball state
(`pathPoints[0]?.x || canvas.width / 2` is falsy also at x = 0; ballY
starts at 50), and the initial total energy stored once into
`initialEnergyRef`. The initial velocity components are inputs (the source
selects them from the speed-control mode). -/
def runSimulation (path : List PathSegment) (canvasWidth vx0 vy0 : ℚ) :
    Option RunStart :=
  if path.length = 0 then none
  else
    let pathPoints := getPathPoints path
    let ballX :=
      match pathPoints.head? with
      | some p => if p.x = 0 then canvasWidth / 2 else p.x
      | none => canvasWidth / 2
    let s0 : SimState := ⟨ballX, 50, vx0, vy0, false, false⟩
    some ⟨pathPoints, s0, totalEnergyOf vx0 vy0 50⟩

/-- Classification of one text field of the `PredictionData` form state:
`empty` is the empty string (the only falsy string, skipped by the
`if (predictions.field)` guards), `unparseable` a non-empty string on which
`parseFloat` yields NaN, `value q` a non-empty string parsing to `q`. -/
inductive PredEntry
  | empty
  | unparseable
  | value (q : ℚ)
  deriving DecidableEq

/-- Source `PredictionData`, one entry per metric. -/
structure PredictionData where
  initialTotalEnergy : PredEntry
  finalTotalEnergy : PredEntry
  energyLoss : PredEntry
  efficiency : PredEntry
  deriving DecidableEq

/-- Result of `parseFloat` on an entry; `none` models NaN. -/
def parseEntry : PredEntry → Option ℚ
  | .value q => some q
  | _ => none

/-- The four metric labels pushed by `evaluatePredictions` (the source uses
string labels). -/
inductive MetricName
  | initialTotalEnergy
  | finalTotalEnergy
  | energyLoss
  | efficiency
  deriving DecidableEq

/-- Source `PredictionResult`; `none` in a numeric field models NaN. -/
structure PredictionResult where
  metric : MetricName
  predicted : Option ℚ
  actual : ℚ
  isCorrect : Bool
  accuracy : Option ℚ
  deriving DecidableEq

/-- NaN-aware `isPredictionCorrect`: every comparison against NaN is false
in both branches of the source. -/
def isCorrectN : Option ℚ → ℚ → Bool
  | none, _ => false
  | some p, a => isPredictionCorrect p a

/-- NaN-aware `calculatePredictionAccuracy`: with predicted NaN the
`actual === 0` branch returns the real 0 (NaN is not stricly equal to 0),
and the other branch returns `Math.max(0, NaN) = NaN`. -/
def accuracyN : Option ℚ → ℚ → Option ℚ
  | none, a => if a = 0 then some 0 else none
  | some p, a => some (calculatePredictionAccuracy p a)

/-- One pushed result object of `evaluatePredictions`. -/
def mkResult (metric : MetricName) (entry : PredEntry) (actual : ℚ) :
    PredictionResult :=
  let predicted := parseEntry entry
  ⟨metric, predicted, actual, isCorrectN predicted actual,
    accuracyN predicted actual⟩

/-- Source `evaluatePredictions(final)`: a result is pushed for every
truthy (non-empty) entry, in the fixed metric order. -/
def evaluatePredictions (preds : PredictionData) (initialEnergy : ℚ)
    (final : EnergyData) : List PredictionResult :=
  let efficiency := ((initialEnergy - final.energyLoss) / initialEnergy) * 100
  (if preds.initialTotalEnergy ≠ .empty then
    [mkResult .initialTotalEnergy preds.initialTotalEnergy initialEnergy]
   else []) ++
  (if preds.finalTotalEnergy ≠ .empty then
    [mkResult .finalTotalEnergy preds.finalTotalEnergy final.totalEnergy]
   else []) ++
  (if preds.energyLoss ≠ .empty then
    [mkResult .energyLoss preds.energyLoss final.energyLoss]
   else []) ++
  (if preds.efficiency ≠ .empty then
    [mkResult .efficiency preds.efficiency efficiency]
   else [])

/-- Number of populated (non-empty) prediction entries. -/
def countPopulated (preds : PredictionData) : ℕ :=
  (if preds.initialTotalEnergy ≠ .empty then 1 else 0) +
  (if preds.finalTotalEnergy ≠ .empty then 1 else 0) +
  (if preds.energyLoss ≠ .empty then 1 else 0) +
  (if preds.efficiency ≠ .empty then 1 else 0)

/-- Quadratic interpolation in the words of the spec sentence for curve
sampling: control point is the midpoint of the two endpoints. -/
def specQuadPoint (p1 p2 : Point) (t : ℚ) : Point :=
  let mx := (p1.x + p2.x) / 2
  let my := (p1.y + p2.y) / 2
  ⟨(1 - t) ^ 2 * p1.x + 2 * (1 - t) * t * mx + t ^ 2 * p2.x,
   (1 - t) ^ 2 * p1.y + 2 * (1 - t) * t * my + t ^ 2 * p2.y⟩

theorem bucketStage_capture (b : Bucket) (si : SimState)
    (h1 : si.ballInBucket = false)
    (h2 : checkBucketHit (some b) si.ballX si.ballY = true) :
    bucketStage (some b) si = ⟨si.ballX, b.y - b.height - BALL_RADIUS, 0, 0, true, true⟩ := by
  simp [bucketStage, h1, h2]

theorem bucketStage_nohit (bucket : Option Bucket) (si : SimState)
    (h : checkBucketHit bucket si.ballX si.ballY = false) :
    bucketStage bucket si = si := by
  cases bucket <;> simp_all [bucketStage]

theorem groundStage_inBucket (f : ℚ) (si : SimState) (h : si.ballInBucket = true) :
    groundStage f si = si := by
  simp [groundStage, h]

theorem groundStage_hit (f : ℚ) (si : SimState) (hb : si.ballInBucket = false)
    (hy : GROUND_Y ≤ si.ballY + BALL_RADIUS) :
    groundStage f si =
      { si with ballY := GROUND_Y - BALL_RADIUS, vy := 0, onGround := true,
                vx := si.vx * f } := by
  simp [groundStage, hb, hy]

theorem groundStage_miss (f : ℚ) (si : SimState)
    (hy : ¬(GROUND_Y ≤ si.ballY + BALL_RADIUS)) :
    groundStage f si = si := by
  simp [groundStage, hy]

theorem pathStage_inBucket (pts : List Point) (si : SimState) (h : si.ballInBucket = true) :
    pathStage pts si = si := by
  simp [pathStage, h]

theorem pathStage_none (pts : List Point) (si : SimState) (hb : si.ballInBucket = false)
    (hc : getCollisionPoint ⟨si.ballX, si.ballY⟩ pts = none) :
    pathStage pts si = { si with onGround := false } := by
  simp [pathStage, hb, hc]

theorem pathStage_ballY_le (pts : List Point) (si : SimState) :
    (pathStage pts si).ballY ≤ si.ballY := by
  unfold pathStage
  rcases hcol : getCollisionPoint ⟨si.ballX, si.ballY⟩ pts with _ | cp
  · split_ifs
    all_goals simp_all
  · split_ifs
    all_goals simp_all
    all_goals split_ifs
    all_goals simp_all
    all_goals linarith

theorem frictionStage_inBucket (f : ℚ) (si : SimState) (h : si.ballInBucket = true) :
    frictionStage f si = si := by
  simp [frictionStage, h]

theorem frictionStage_ballY (f : ℚ) (si : SimState) :
    (frictionStage f si).ballY = si.ballY := by
  unfold frictionStage
  split_ifs <;> rfl

theorem frictionStage_notInBucket (f : ℚ) (si : SimState) (h : si.ballInBucket = false) :
    frictionStage f si = { si with vx := si.vx * f } := by
  simp [frictionStage, h]

theorem tickCore_eq (bucket : Option Bucket) (f : ℚ) (pts : List Point) (s : SimState) :
    tickCore bucket f pts s =
      some (frictionStage f (pathStage pts (groundStage f (bucketStage bucket (integrate s))))) := by
  simp [tickCore, isFiniteQ]

theorem integrate_eq (s : SimState) :
    integrate s = ⟨s.ballX + s.vx, s.ballY + (s.vy + GRAVITY), s.vx, s.vy + GRAVITY,
      s.onGround, s.ballInBucket⟩ := rfl

theorem tickCore_capture (b : Bucket) (f : ℚ) (pts : List Point) (s : SimState)
    (h1 : s.ballInBucket = false)
    (h2 : checkBucketHit (some b) (s.ballX + s.vx) (s.ballY + (s.vy + GRAVITY)) = true) :
    tickCore (some b) f pts s =
      some ⟨s.ballX + s.vx, b.y - b.height - BALL_RADIUS, 0, 0, true, true⟩ := by
  rw [tickCore_eq, integrate_eq]
  rw [bucketStage_capture b _ (by simpa using h1) (by simpa using h2)]
  rw [groundStage_inBucket _ _ rfl, pathStage_inBucket _ _ rfl, frictionStage_inBucket _ _ rfl]

theorem animateTick_capture (b : Bucket) (f : ℚ) (pts : List Point) (s : SimState)
    (h1 : s.ballInBucket = false)
    (h2 : checkBucketHit (some b) (s.ballX + s.vx) (s.ballY + (s.vy + GRAVITY)) = true) :
    animateTick (some b) f pts s =
      .settled ⟨s.ballX + s.vx, b.y - b.height - BALL_RADIUS, 0, 0, true, true⟩ := by
  rw [animateTick, tickCore_capture b f pts s h1 h2]
  norm_num

theorem tickCore_inBucket (bucket : Option Bucket) (f : ℚ) (pts : List Point) (s : SimState)
    (h : s.ballInBucket = true) :
    tickCore bucket f pts s =
      some ⟨s.ballX + s.vx, s.ballY + (s.vy + GRAVITY), s.vx, s.vy + GRAVITY, s.onGround, true⟩ := by
  rw [tickCore_eq, integrate_eq, h]
  have hb : bucketStage bucket (⟨s.ballX + s.vx, s.ballY + (s.vy + GRAVITY), s.vx, s.vy + GRAVITY, s.onGround, true⟩ : SimState) = ⟨s.ballX + s.vx, s.ballY + (s.vy + GRAVITY), s.vx, s.vy + GRAVITY, s.onGround, true⟩ := by
    cases bucket <;> simp [bucketStage]
  rw [hb, groundStage_inBucket _ _ rfl, pathStage_inBucket _ _ rfl, frictionStage_inBucket _ _ rfl]

/-- Concrete demo inputs: a short horizontal line far below the starting
ball, sampled into two points. -/
def demoPath : List PathSegment := [⟨.line, [⟨100, 600⟩, ⟨105, 600⟩]⟩]
def demoPts : List Point := getPathPoints demoPath
def demoS0 : SimState := ⟨100, 50, 2, 0, false, false⟩

/-- Claim C1 (amended): with frictionCoefficient = 1 total energy is not
constant in free fall; instead every free-fall tick (no bucket capture, no
ground trigger, no path collision) decreases the post-tick total energy by
exactly GRAVITY squared over two, i.e. 9/200 per tick, an artifact of the
integration order (velocity is incremented before the position update and
energy is read from the post-tick pair). -/
theorem freefall_tick_energy_decrement (bucket : Option Bucket) (pts : List Point) (s : SimState)
    (h1 : s.ballInBucket = false)
    (h2 : checkBucketHit bucket (s.ballX + s.vx) (s.ballY + (s.vy + GRAVITY)) = false)
    (h3 : s.ballY + (s.vy + GRAVITY) + BALL_RADIUS < GROUND_Y)
    (h4 : getCollisionPoint ⟨s.ballX + s.vx, s.ballY + (s.vy + GRAVITY)⟩ pts = none) :
    tickCore bucket 1 pts s =
      some ⟨s.ballX + s.vx, s.ballY + (s.vy + GRAVITY), s.vx * 1, s.vy + GRAVITY,
            false, false⟩ ∧
    totalEnergyOf (s.vx * 1) (s.vy + GRAVITY) (s.ballY + (s.vy + GRAVITY)) =
      totalEnergyOf s.vx s.vy s.ballY - 9/200 := by
  constructor
  · rw [tickCore_eq, integrate_eq]
    rw [bucketStage_nohit _ _ (by simpa using h2)]
    rw [groundStage_miss _ _ (by simp; linarith)]
    rw [pathStage_none _ _ (by simpa using h1) (by simpa using h4)]
    rw [frictionStage_notInBucket _ _ (by simpa using h1)]
    simp [h1]
  · simp only [totalEnergyOf, calculateEnergy, BALL_MASS, GRAVITY, GROUND_Y]
    ring

/-- Witness for C1 (amended) at a concrete free-fall tick of the demo run:
total energy drops from 182 to 182 - 9/200. -/
theorem freefall_tick_energy_decrement_witness :
    tickCore none 1 demoPts demoS0 = some ⟨102, 503/10, 2, 3/10, false, false⟩ ∧
    totalEnergyOf 2 (3/10) (503/10) = totalEnergyOf 2 0 50 - 9/200 := by
  with_unfolding_all
    (exact freefall_tick_energy_decrement none demoPts demoS0 rfl
      (by with_unfolding_all rfl)
      (by norm_num [demoS0, GRAVITY, BALL_RADIUS, GROUND_Y])
      (by with_unfolding_all rfl))

/-- Claim C1 counterexample: a concrete run with friction 1 (path far below
the ball, no bucket) whose very first tick triggers no contact of any kind,
yet the post-tick total energy is 182 - 9/200 against an initial total of
182. The gap 9/200 = 0.045 exceeds any floating-point rounding tolerance
(double-precision relative error is about 2 to the -52; even 10 to the -6
is far above it), so total energy is not constant within floating-point
tolerance across pre-contact ticks as the claim states. -/
theorem freefall_energy_not_constant :
    runSimulation demoPath 1200 2 0 = some ⟨demoPts, demoS0, 182⟩ ∧
    checkBucketHit none 102 (503/10) = false ∧
    (503/10) + BALL_RADIUS < GROUND_Y ∧
    getCollisionPoint ⟨102, 503/10⟩ demoPts = none ∧
    animateTick none 1 demoPts demoS0 = .running ⟨102, 503/10, 2, 3/10, false, false⟩ ∧
    totalEnergyOf 2 0 50 = 182 ∧
    totalEnergyOf 2 (3/10) (503/10) = 182 - 9/200 ∧
    (1 : ℚ)/1000000 < 9/200 := by
  refine ⟨by with_unfolding_all rfl, by with_unfolding_all rfl, by norm_num [BALL_RADIUS, GROUND_Y],
    by with_unfolding_all rfl, by with_unfolding_all rfl, by with_unfolding_all rfl,
    by with_unfolding_all rfl, by norm_num⟩

/-- Path whose only segment has a single control point. -/
def badPath : List PathSegment := [⟨.line, [⟨100, 50⟩]⟩]

/-- Claim C2 counterexample: a path whose only segment has a single point
(fewer than 2) is not refused by runSimulation: the run starts (ball at the
canvas-centre fallback, since the sampled path is empty) and the first tick
advances the simulation state. -/
theorem single_point_segment_run_starts :
    runSimulation badPath 1200 2 0 = some ⟨[], ⟨600, 50, 2, 0, false, false⟩, 182⟩ ∧
    animateTick none (98/100) [] ⟨600, 50, 2, 0, false, false⟩ =
      .running ⟨602, 503/10, 49/25, 3/10, false, false⟩ := by
  exact ⟨by with_unfolding_all rfl, by with_unfolding_all rfl⟩

/-- Claim C2 (amended): runSimulation refuses to start a run exactly when
the path has zero segments; a segment with fewer than 2 points is not
checked and does not prevent the run. -/
theorem runSimulation_refuses_iff_no_segments (path : List PathSegment) (cw vx0 vy0 : ℚ) :
    runSimulation path cw vx0 vy0 = none ↔ path = [] := by
  unfold runSimulation
  rcases path with _ | ⟨sg, rest⟩ <;> simp

/-- A pushed result whose predicted value is NaN is never correct, and its
accuracy is NaN unless the actual value is zero. -/
theorem mkResult_nan (m : MetricName) (e : PredEntry) (a : ℚ)
    (h : (mkResult m e a).predicted = none) :
    (mkResult m e a).isCorrect = false ∧
      ((mkResult m e a).actual ≠ 0 → (mkResult m e a).accuracy = none) := by
  unfold mkResult at h ⊢
  simp only at h ⊢
  rw [h]
  exact ⟨rfl, fun ha => by simp [accuracyN, ha]⟩

/-- Claim C3 counterexample: a populated (non-empty) prediction entry whose
text does not parse to a number is not omitted: evaluatePredictions still
produces a PredictionResult for that metric, with NaN predicted value
(modelled none), isCorrect false and NaN accuracy. -/
theorem unparseable_prediction_scored :
    evaluatePredictions ⟨.unparseable, .empty, .empty, .empty⟩ 180 ⟨0, 0, 0, 0⟩ =
      [⟨.initialTotalEnergy, none, 180, false, none⟩] := by
  with_unfolding_all rfl

/-- Claim C3 (amended): evaluatePredictions produces exactly one
PredictionResult per populated (non-empty) entry regardless of
parseability; an entry that fails to parse yields a result whose predicted
value is NaN, whose isCorrect is false, and whose accuracy is NaN whenever
the actual value is non-zero. Only empty entries are omitted. -/
theorem evaluatePredictions_scores_all_populated (preds : PredictionData) (init : ℚ)
    (final : EnergyData) :
    (evaluatePredictions preds init final).length = countPopulated preds ∧
    ∀ r ∈ evaluatePredictions preds init final, r.predicted = none →
      r.isCorrect = false ∧ (r.actual ≠ 0 → r.accuracy = none) := by
  constructor
  · unfold evaluatePredictions countPopulated
    split_ifs <;> simp
  · intro r hr hpred
    unfold evaluatePredictions at hr
    simp only [List.mem_append] at hr
    rcases hr with ((hr | hr) | hr) | hr <;>
      · revert hr
        split_ifs <;> intro hr <;> simp only [List.mem_singleton, List.not_mem_nil] at hr
        subst hr
        exact mkResult_nan _ _ _ hpred

/-- Witness for C3 (amended) at a concrete PredictionSet with one parsed
and one unparseable entry. -/
theorem evaluatePredictions_scores_all_populated_witness :
    (evaluatePredictions ⟨.value 180, .unparseable, .empty, .empty⟩ 180 ⟨1, 2, 3, 4⟩).length =
      countPopulated ⟨.value 180, .unparseable, .empty, .empty⟩ ∧
    (⟨.finalTotalEnergy, none, 3, false, none⟩ : PredictionResult).isCorrect = false ∧
    ((⟨.finalTotalEnergy, none, 3, false, none⟩ : PredictionResult).actual ≠ 0 →
      (⟨.finalTotalEnergy, none, 3, false, none⟩ : PredictionResult).accuracy = none) := by
  refine ⟨(evaluatePredictions_scores_all_populated ⟨.value 180, .unparseable, .empty, .empty⟩ 180 ⟨1, 2, 3, 4⟩).1, ?_⟩
  have hmem : (⟨.finalTotalEnergy, none, 3, false, none⟩ : PredictionResult) ∈
      evaluatePredictions ⟨.value 180, .unparseable, .empty, .empty⟩ 180 ⟨1, 2, 3, 4⟩ := by
    have hl : evaluatePredictions ⟨.value 180, .unparseable, .empty, .empty⟩ 180 ⟨1, 2, 3, 4⟩ =
        [⟨.initialTotalEnergy, some 180, 180, true, some 100⟩,
         ⟨.finalTotalEnergy, none, 3, false, none⟩] := by
      with_unfolding_all rfl
    rw [hl]
    simp
  exact (evaluatePredictions_scores_all_populated ⟨.value 180, .unparseable, .empty, .empty⟩ 180 ⟨1, 2, 3, 4⟩).2
    ⟨.finalTotalEnergy, none, 3, false, none⟩ hmem rfl

/-- The linear interpolation the source emits coincides pointwise with the
midpoint-control quadratic of the spec: expanding the Bernstein form with
control point (p1 + p2) / 2 collapses to p1 + (p2 - p1) t. -/
theorem samplePair_eq_specQuad (p1 p2 : Point) :
    samplePair p1 p2 30 =
      (List.range 31).map (fun k => specQuadPoint p1 p2 ((k : ℚ) / 30)) := by
  unfold samplePair specQuadPoint
  congr 1
  funext t
  simp only [Point.mk.injEq]
  constructor <;> (push_cast; ring)

/-- Claim C4: for every curve segment, every consecutive control-point pair
is subdivided into exactly 30 steps (31 samples, t = k/30 for k = 0..30)
and each emitted sample equals the quadratic interpolation whose control
point is the midpoint of the two endpoints. -/
theorem curve_sampling_matches_midpoint_quadratic (seg : PathSegment)
    (h : seg.type = .curve) :
    segmentPoints seg =
      (seg.points.zip seg.points.tail).flatMap
        (fun pr => (List.range 31).map (fun k => specQuadPoint pr.1 pr.2 ((k : ℚ) / 30))) := by
  unfold segmentPoints
  rw [h]
  simp only [samplePair_eq_specQuad]

/-- Concrete curve segment with two control points. -/
def demoCurve : PathSegment := ⟨.curve, [⟨0, 0⟩, ⟨30, 60⟩]⟩

/-- Witness for C4 on a concrete two-point curve segment. -/
theorem curve_sampling_matches_midpoint_quadratic_witness :
    segmentPoints demoCurve =
      (demoCurve.points.zip demoCurve.points.tail).flatMap
        (fun pr => (List.range 31).map (fun k => specQuadPoint pr.1 pr.2 ((k : ℚ) / 30))) :=
  curve_sampling_matches_midpoint_quadratic demoCurve rfl

/-- Claim C5: bucket capture is latched. On the capture tick both velocity
components are zeroed and y is pinned to the bucket top minus the radius,
and the tick settles, so no later tick runs; moreover on any tick of an
already-captured state the ground rule, the path rule and the global
friction scaling are all skipped (the state changes only by the plain
integration step). -/
theorem bucket_capture_latched (b : Bucket) (f : ℚ) (pts : List Point) :
    (∀ s : SimState, s.ballInBucket = false →
       checkBucketHit (some b) (s.ballX + s.vx) (s.ballY + (s.vy + GRAVITY)) = true →
       animateTick (some b) f pts s =
         .settled ⟨s.ballX + s.vx, b.y - b.height - BALL_RADIUS, 0, 0, true, true⟩) ∧
    (∀ s : SimState, s.ballInBucket = true →
       tickCore (some b) f pts s =
         some ⟨s.ballX + s.vx, s.ballY + (s.vy + GRAVITY), s.vx, s.vy + GRAVITY,
               s.onGround, true⟩) :=
  ⟨fun s h1 h2 => animateTick_capture b f pts s h1 h2,
   fun s h => tickCore_inBucket (some b) f pts s h⟩

/-- Witness for C5 at a concrete capturing tick. -/
theorem bucket_capture_latched_witness :
    animateTick (some ⟨300, 650, 80, 60, false⟩) (98/100) []
        ⟨300, 570, 0, 5, false, false⟩ =
      .settled ⟨300, 575, 0, 0, true, true⟩ := by
  with_unfolding_all
    (exact (bucket_capture_latched ⟨300, 650, 80, 60, false⟩ (98/100) []).1
      ⟨300, 570, 0, 5, false, false⟩ rfl (by with_unfolding_all rfl))

/-- Claim C10: on the very tick in which bucket containment first becomes
true, the run terminates: capture zeroes both velocity components, so the
settle check passes on that same tick; the final snapshot is computed with
the ball pinned at the bucket top minus the radius and zero velocity, and
iterating the scheduler any number of further steps leaves the settled
outcome unchanged (no later tick occurs). -/
theorem bucket_capture_terminates_run (b : Bucket) (f init : ℚ) (pts : List Point)
    (s : SimState) (h1 : s.ballInBucket = false)
    (h2 : checkBucketHit (some b) (s.ballX + s.vx) (s.ballY + (s.vy + GRAVITY)) = true) :
    animateTick (some b) f pts s =
      .settled ⟨s.ballX + s.vx, b.y - b.height - BALL_RADIUS, 0, 0, true, true⟩ ∧
    settledSnapshot init (animateTick (some b) f pts s) =
      some (calculateEnergy init 0 0 (b.y - b.height - BALL_RADIUS)) ∧
    (∀ n : ℕ, (runStep (some b) f pts)^[n] (animateTick (some b) f pts s) =
       animateTick (some b) f pts s) := by
  have ha := animateTick_capture b f pts s h1 h2
  refine ⟨ha, by rw [ha]; rfl, ?_⟩
  intro n
  induction n with
  | zero => rfl
  | succ k ih => rw [Function.iterate_succ_apply', ih, ha]; rfl

/-- Witness for C10 at a concrete capturing tick, iterated three further
scheduler steps. -/
theorem bucket_capture_terminates_run_witness :
    animateTick (some ⟨400, 650, 80, 60, false⟩) (9/10) []
        ⟨400, 585, 1, 6, false, false⟩ =
      .settled ⟨401, 575, 0, 0, true, true⟩ ∧
    settledSnapshot 100 (animateTick (some ⟨400, 650, 80, 60, false⟩) (9/10) []
        ⟨400, 585, 1, 6, false, false⟩) =
      some (calculateEnergy 100 0 0 575) ∧
    (runStep (some ⟨400, 650, 80, 60, false⟩) (9/10) [])^[3]
        (animateTick (some ⟨400, 650, 80, 60, false⟩) (9/10) []
          ⟨400, 585, 1, 6, false, false⟩) =
      animateTick (some ⟨400, 650, 80, 60, false⟩) (9/10) []
        ⟨400, 585, 1, 6, false, false⟩ := by
  have h := bucket_capture_terminates_run ⟨400, 650, 80, 60, false⟩ (9/10) 100 []
    ⟨400, 585, 1, 6, false, false⟩ rfl (by with_unfolding_all rfl)
  with_unfolding_all (exact ⟨h.1, h.2.1, h.2.2 3⟩)

/-- One tick is the core followed by the settle check on the computed
velocities. -/
theorem animateTick_of_core (bucket : Option Bucket) (f : ℚ) (pts : List Point)
    (s s1 : SimState) (h : tickCore bucket f pts s = some s1) :
    animateTick bucket f pts s =
      if (decide (|s1.vx| < 1/10) && decide (|s1.vy| < 1/10)) = true then
        .settled { s1 with vx := 0, vy := 0 }
      else .running s1 := by
  unfold animateTick
  rw [h]

/-- Claim C6: a tick settles exactly when, after all of the tick's velocity
updates, both velocity magnitudes are below 1/10; in that case both
components snap to exactly 0, the final snapshot is computed from the
snapped state, and the outcome is terminal; otherwise the tick keeps
running. -/
theorem settle_check_characterization (bucket : Option Bucket) (f : ℚ) (pts : List Point)
    (s s1 : SimState) (init : ℚ) (h : tickCore bucket f pts s = some s1) :
    (|s1.vx| < 1/10 ∧ |s1.vy| < 1/10 →
       animateTick bucket f pts s = .settled { s1 with vx := 0, vy := 0 } ∧
       settledSnapshot init (animateTick bucket f pts s) =
         some (calculateEnergy init 0 0 s1.ballY)) ∧
    (¬(|s1.vx| < 1/10 ∧ |s1.vy| < 1/10) →
       animateTick bucket f pts s = .running s1) := by
  constructor
  · rintro ⟨hx, hy⟩
    have hb : (decide (|s1.vx| < 1/10) && decide (|s1.vy| < 1/10)) = true := by
      rw [Bool.and_eq_true]
      exact ⟨decide_eq_true hx, decide_eq_true hy⟩
    have hset : animateTick bucket f pts s = .settled { s1 with vx := 0, vy := 0 } := by
      rw [animateTick_of_core bucket f pts s s1 h, hb]
      simp
    exact ⟨hset, by rw [hset]; rfl⟩
  · intro hn
    have hb : (decide (|s1.vx| < 1/10) && decide (|s1.vy| < 1/10)) = false := by
      rcases Decidable.em (|s1.vx| < 1/10) with hx | hx
      · rcases Decidable.em (|s1.vy| < 1/10) with hy | hy
        · exact absurd ⟨hx, hy⟩ hn
        · rw [decide_eq_false hy, Bool.and_false]
      · rw [decide_eq_false hx, Bool.false_and]
    rw [animateTick_of_core bucket f pts s s1 h, hb]
    simp

/-- Witness for C6 at a concrete settling tick. -/
theorem settle_check_characterization_witness :
    animateTick none (1/2) [] ⟨100, 50, 0, -3/10, false, false⟩ =
      .settled ⟨100, 50, 0, 0, false, false⟩ ∧
    settledSnapshot 200 (animateTick none (1/2) [] ⟨100, 50, 0, -3/10, false, false⟩) =
      some (calculateEnergy 200 0 0 50) := by
  with_unfolding_all
    (exact (settle_check_characterization none (1/2) [] ⟨100, 50, 0, -3/10, false, false⟩
      ⟨100, 50, 0, 0, false, false⟩ 200 (by with_unfolding_all rfl)).1 (by norm_num))

/-- Claim C7: the energy snapshot satisfies kinetic = mass times half of
the squared speed, potential = mass times gravity times the height above
the ground line, total = kinetic + potential, and loss = the fixed
run-start initial total minus total (the initial total is an explicit
run-constant parameter, never the previous tick's total). -/
theorem calculateEnergy_formulas (init vx vy ballY : ℚ) :
    (calculateEnergy init vx vy ballY).kineticEnergy = 1/2 * BALL_MASS * (vx ^ 2 + vy ^ 2) ∧
    (calculateEnergy init vx vy ballY).potentialEnergy = BALL_MASS * GRAVITY * (GROUND_Y - ballY) ∧
    (calculateEnergy init vx vy ballY).totalEnergy =
      (calculateEnergy init vx vy ballY).kineticEnergy +
        (calculateEnergy init vx vy ballY).potentialEnergy ∧
    (calculateEnergy init vx vy ballY).energyLoss =
      init - (calculateEnergy init vx vy ballY).totalEnergy := by
  refine ⟨?_, rfl, rfl, rfl⟩
  show 1/2 * BALL_MASS * (vx * vx + vy * vy) = 1/2 * BALL_MASS * (vx ^ 2 + vy ^ 2)
  ring

/-- The path block never raises the ball and the global friction block
leaves y unchanged. -/
theorem frictionPath_ballY_le (f : ℚ) (pts : List Point) (si : SimState) :
    (frictionStage f (pathStage pts si)).ballY ≤ si.ballY := by
  rw [frictionStage_ballY]
  exact pathStage_ballY_le pts si

/-- Claim C8: on every tick in which the ground rule triggers (ball bottom
at or past the ground line after integration, no bucket capture), the
end-of-tick y never exceeds GROUND_Y - BALL_RADIUS: the ground clamp sets
y to exactly that value and the later path-contact clamp can only lower it
further. -/
theorem ground_contact_clamp (bucket : Option Bucket) (f : ℚ) (pts : List Point)
    (s s1 : SimState) (h1 : s.ballInBucket = false)
    (h2 : checkBucketHit bucket (s.ballX + s.vx) (s.ballY + (s.vy + GRAVITY)) = false)
    (h3 : GROUND_Y ≤ s.ballY + (s.vy + GRAVITY) + BALL_RADIUS)
    (h : tickCore bucket f pts s = some s1) :
    s1.ballY ≤ GROUND_Y - BALL_RADIUS := by
  rw [tickCore_eq, integrate_eq] at h
  rw [bucketStage_nohit _ _ (by simpa using h2)] at h
  rw [groundStage_hit _ _ (by simpa using h1) (by simpa using h3)] at h
  have hs1 := Option.some.inj h
  rw [← hs1]
  exact le_trans (frictionPath_ballY_le f pts _) (le_refl _)

/-- Witness for C8 at a concrete ground-contact tick. -/
theorem ground_contact_clamp_witness :
    ((⟨105, 635, 2401/500, 0, false, false⟩ : SimState)).ballY ≤ GROUND_Y - BALL_RADIUS := by
  with_unfolding_all
    (exact ground_contact_clamp none (98/100) [] ⟨100, 640, 5, 0, false, false⟩
      ⟨105, 635, 2401/500, 0, false, false⟩ rfl (by with_unfolding_all rfl)
      (by norm_num [GRAVITY, BALL_RADIUS, GROUND_Y]) (by with_unfolding_all rfl))

/-- Claim C9: accuracy is 100 for a zero prediction of a zero actual and 0
for a non-zero prediction of a zero actual; for non-zero actual it equals
max 0 of (100 minus the relative-error percentage), hence is never
negative, and a perfect non-zero prediction scores exactly 100. -/
theorem prediction_accuracy_spec (p a : ℚ) :
    (a = 0 → calculatePredictionAccuracy p a = if p = 0 then 100 else 0) ∧
    (a ≠ 0 → calculatePredictionAccuracy p a = max 0 (100 - |p - a| / |a| * 100)) ∧
    0 ≤ calculatePredictionAccuracy p a ∧
    (a ≠ 0 → calculatePredictionAccuracy a a = 100) := by
  refine ⟨?_, ?_, ?_, ?_⟩
  · intro h; simp [calculatePredictionAccuracy, h]
  · intro h; simp [calculatePredictionAccuracy, h, abs_div]
  · unfold calculatePredictionAccuracy
    split_ifs <;> simp
  · intro h; simp [calculatePredictionAccuracy, h]

/-- Witness for C9: predicting the exact non-zero actual 5 scores 100. -/
theorem prediction_accuracy_spec_witness :
    (5 : ℚ) ≠ 0 ∧ calculatePredictionAccuracy 5 5 = 100 :=
  ⟨by norm_num, (prediction_accuracy_spec 5 5).2.2.2 (by norm_num)⟩
